import Mathlib

/-! Verification development for the Adobe Round-1B document ranking program
(`main.py`).  The program's text processing is embedded shallowly over
`List Char`: Python strings become character lists, `str.lower()` becomes an
ASCII lowercase map, regular expressions used by the program are modelled by
structural scanners with the same observable behaviour, and Python floats are
modelled by exact rationals (the arithmetic performed by the program - sums,
products, one division and a cap - is exact at the granularity the claims talk
about).  Fallible external collaborators (the PDF structure extractor and the
page-text provider) are modelled as `Except`-valued inputs.
-/

set_option maxRecDepth 20000

namespace AdobeR1B

/-! Basic text helpers (models of Python string / regex primitives) -/

/-- ASCII lowercase of a character list; models Python `str.lower()` on the
ASCII texts the program works with. -/
def lowerL (l : List Char) : List Char := l.map Char.toLower

/-- Python regex `\w` for ASCII text: alphanumeric or underscore. -/
def isWordChar (c : Char) : Bool := c.isAlphanum || c == '_'

/-- Python regex `\s` for ASCII text (the whitespace class). -/
def isSpc (c : Char) : Bool :=
  c == ' ' || c == '\t' || c == '\n' || c == '\r' || c == '\x0b' || c == '\x0c'

/-- First list is an initial segment of the second (Python `startswith`). -/
def leadsWith : List Char → List Char → Bool
  | [], _ => true
  | _ :: _, [] => false
  | a :: as, b :: bs => a == b && leadsWith as bs

/-- Substring containment: models the Python expression `needle in hay`. -/
def hasSub (hay needle : List Char) : Bool :=
  match hay with
  | [] => needle.isEmpty
  | _ :: t => leadsWith needle hay || hasSub t needle

/-- Maximal runs of characters satisfying `p` (accumulator is reversed). -/
def runsByAux (p : Char → Bool) : List Char → List Char → List (List Char)
  | [], acc => if acc.isEmpty then [] else [acc.reverse]
  | c :: rest, acc =>
    if p c then runsByAux p rest (c :: acc)
    else if acc.isEmpty then runsByAux p rest []
    else acc.reverse :: runsByAux p rest []

/-- Maximal runs of word characters (`\w+` chunks) of a text. -/
def wordRuns (l : List Char) : List (List Char) := runsByAux isWordChar l []

/-- Python `re.findall(r'\b[a-zA-Z]{3,}\b', l)`: a token is a maximal run of
word characters that is entirely alphabetic and has length at least 3 (an
alphabetic run adjacent to a digit or underscore has no word boundary and is
not matched by the regex). -/
def findWords (l : List Char) : List (List Char) :=
  (wordRuns l).filter (fun w => w.all Char.isAlpha && decide (3 ≤ w.length))

/-- Python `re.findall(r'\b(\d+)\b', l)`: maximal word-character runs that
consist entirely of digits. -/
def findNumbers (l : List Char) : List (List Char) :=
  (wordRuns l).filter (fun w => w.all Char.isDigit)

/-- Value of a decimal digit string (models Python `int(s)` on `\d+`). -/
def parseNat (w : List Char) : Nat := w.foldl (fun n c => 10 * n + (c.toNat - 48)) 0

/-- Python `.split()`: maximal runs of non-whitespace characters. -/
def splitWs (l : List Char) : List (List Char) := runsByAux (fun c => !isSpc c) l []

/-- Python `str.strip()`: drop whitespace at both ends. -/
def stripL (l : List Char) : List Char :=
  ((l.dropWhile isSpc).reverse.dropWhile isSpc).reverse

/-- Leading maximal digit run and the remainder of the text. -/
def takeDigits : List Char → List Char × List Char
  | [] => ([], [])
  | c :: rest =>
    if c.isDigit then
      let p := takeDigits rest
      (c :: p.1, p.2)
    else ([], c :: rest)

/-- Drop a leading run of whitespace. -/
def dropSpc : List Char → List Char
  | [] => []
  | c :: rest => if isSpc c then dropSpc rest else c :: rest

/-- Model of Python `re.search(r'(\d+)\s*LIT...', l)` for a literal `lit`
starting with a non-digit non-space character (here "day" / "week"): the
leftmost position carrying a maximal digit run followed by optional whitespace
and the literal wins, and the captured group is that digit run.  (Backtracking
inside the digit or whitespace run can never succeed because the next required
character is neither a digit nor whitespace.) -/
def searchDur (lit : List Char) : List Char → Option (List Char)
  | [] => none
  | c :: rest =>
    let p := takeDigits (c :: rest)
    if !p.1.isEmpty && leadsWith lit (dropSpc p.2) then some p.1
    else searchDur lit rest

/-- Space-separated join: models Python `' '.join(parts)`. -/
def joinSp : List (List Char) → List Char
  | [] => []
  | [x] => x
  | x :: y :: rest => x ++ ' ' :: joinSp (y :: rest)

/-- Convenience: string literals to character lists. -/
def strs (l : List String) : List (List Char) := l.map String.toList

/-- Python `any(p in hay for p in phrases)`. -/
def phraseAny (hay : List Char) (phrases : List (List Char)) : Bool :=
  phrases.any (fun p => hasSub hay p)

/-! Data model: the Context object (`analyze_persona_job_context` output) -/

inductive PersonaType
  | general
  | travel_professional
  | content_creator
  | business
deriving DecidableEq, Repr

inductive GroupType
  | individual
  | group
deriving DecidableEq, Repr

inductive AgeGroup
  | adult
  | young_adult
  | family
  | senior
deriving DecidableEq, Repr

inductive BudgetLevel
  | mid_range
  | budget
  | luxury
deriving DecidableEq, Repr

inductive Activity
  | adventure
  | cultural
  | relaxation
  | nightlife
  | culinary
  | nature
deriving DecidableEq, Repr

/-- The context dictionary built by `analyze_persona_job_context`
(`main.py` lines 118-126).  `group_size = none` models the absence of the
`'group_size'` key; `trip_duration` is kept as the literal string the code
stores. -/
structure Context where
  persona_type : PersonaType
  group_type : GroupType
  trip_duration : List Char
  age_group : AgeGroup
  budget_level : BudgetLevel
  activity_preferences : List Activity
  group_size : Option Nat
deriving DecidableEq, Repr

/-- The `activity_types` table of `main.py` lines 178-185, in source order. -/
def activity_types : List (Activity × List (List Char)) :=
  [(.adventure, strs ["adventure", "outdoor", "hiking", "sports", "active"]),
   (.cultural, strs ["cultural", "museum", "historical", "art", "heritage"]),
   (.relaxation, strs ["relax", "spa", "beach", "peaceful", "quiet"]),
   (.nightlife, strs ["nightlife", "party", "bars", "clubs", "entertainment"]),
   (.culinary, strs ["food", "culinary", "dining", "restaurant", "cooking"]),
   (.nature, strs ["nature", "natural", "park", "wildlife", "scenery"])]

/-- The `duration_patterns` scan of `main.py` lines 154-169: the four patterns
are tried in dictionary insertion order (days, weeks, weekend, long weekend)
and the first match wins; the default is `"unknown"`. -/
def trip_duration_of (combined_text : List Char) : List Char :=
  match searchDur ("day".toList) combined_text with
  | some d => d ++ "_days".toList
  | none =>
    match searchDur ("week".toList) combined_text with
    | some d => d ++ "_weeks".toList
    | none =>
      if hasSub combined_text ("weekend".toList) then "weekend".toList
      else if hasSub combined_text ("long weekend".toList) then "long_weekend".toList
      else "unknown".toList

/-- `DynamicTravelModel.analyze_persona_job_context` (`main.py` lines 115-191). -/
def analyze_persona_job_context (persona_text job_text : List Char) : Context :=
  let combined_text := lowerL (persona_text ++ ' ' :: job_text)
  let persona_type : PersonaType :=
    if phraseAny combined_text (strs ["travel planner", "travel agent", "tour guide"]) then
      .travel_professional
    else if phraseAny combined_text (strs ["blogger", "writer", "journalist"]) then
      .content_creator
    else if phraseAny combined_text (strs ["business", "corporate", "executive"]) then
      .business
    else .general
  let in_group := hasSub combined_text ("group".toList)
  let group_type : GroupType := if in_group then .group else .individual
  let group_size : Option Nat :=
    if in_group then
      match findNumbers job_text with
      | [] => none
      | n :: _ => some (parseNat n)
    else none
  let age_group : AgeGroup :=
    if phraseAny combined_text (strs ["college", "student", "young", "youth"]) then .young_adult
    else if phraseAny combined_text (strs ["family", "children", "kids"]) then .family
    else if phraseAny combined_text (strs ["senior", "elderly", "retirement"]) then .senior
    else .adult
  let budget_level : BudgetLevel :=
    if phraseAny combined_text (strs ["budget", "cheap", "affordable", "low-cost"]) then .budget
    else if phraseAny combined_text (strs ["luxury", "premium", "high-end", "expensive"]) then .luxury
    else .mid_range
  let activity_preferences : List Activity :=
    activity_types.filterMap
      (fun p => if phraseAny combined_text p.2 then some p.1 else none)
  { persona_type := persona_type
    group_type := group_type
    trip_duration := trip_duration_of combined_text
    age_group := age_group
    budget_level := budget_level
    activity_preferences := activity_preferences
    group_size := group_size }

/-- The default context value before any rule fires (`main.py` lines 118-126). -/
def default_context : Context :=
  { persona_type := .general
    group_type := .individual
    trip_duration := "unknown".toList
    age_group := .adult
    budget_level := .mid_range
    activity_preferences := []
    group_size := none }

/-! Relevance Scorer (`calculate_dynamic_relevance`, `main.py` 193-266) -/

/-- The `travel_keywords` table of `main.py` lines 32-69, in source order.
(The Python dict literal lists the key `dining` twice, both times with weight
10; the resulting dict holds a single entry, kept once here.) -/
def travel_keywords : List (List Char × Nat) :=
  (([("trip", 15), ("travel", 15), ("planning", 20), ("itinerary", 18), ("journey", 12),
     ("vacation", 12), ("holiday", 10), ("tour", 14), ("visit", 8), ("explore", 12),
     ("group", 20), ("friends", 18), ("college", 15), ("student", 12), ("young", 10),
     ("together", 8), ("social", 10), ("party", 8), ("team", 8),
     ("activities", 18), ("experiences", 16), ("adventures", 16), ("attractions", 14),
     ("entertainment", 14), ("nightlife", 14), ("cultural", 12), ("outdoor", 10),
     ("sightseeing", 12), ("excursions", 10),
     ("accommodation", 12), ("hotels", 12), ("restaurants", 12), ("dining", 10),
     ("booking", 8), ("reservations", 8), ("transportation", 10),
     ("tips", 16), ("advice", 14), ("guide", 18), ("recommendations", 14),
     ("suggestions", 10), ("tricks", 12), ("information", 8),
     ("coastal", 14), ("beach", 12), ("sea", 8), ("water", 8), ("mountain", 8),
     ("city", 10), ("urban", 8), ("rural", 6), ("countryside", 6),
     ("culinary", 16), ("cuisine", 14), ("food", 12), ("cooking", 10), ("wine", 8),
     ("restaurant", 10), ("cafe", 6),
     ("packing", 14), ("luggage", 8), ("clothes", 6), ("weather", 8),
     ("documents", 8), ("passport", 6), ("visa", 6),
     ("budget", 16), ("cheap", 10), ("affordable", 12), ("expensive", 6),
     ("cost", 8), ("price", 6), ("money", 6)] : List (String × Nat)).map
    (fun p => (p.1.toList, p.2)))

/-- Dictionary lookup in `travel_keywords` (`word in self.travel_keywords`). -/
def keywordWeight (w : List Char) : Option Nat :=
  (travel_keywords.find? (fun p => p.1 == w)).map Prod.snd

/-- One entry of the `content_patterns` table (`main.py` lines 72-113).  The
`content_type` tag is carried by the code but unused by the scorer. -/
structure ContentPattern where
  keywords : List (List Char)
  weight_multiplier : ℚ
  content_type : List Char
deriving Repr

/-- The `content_patterns` table of `main.py` lines 72-113, in source order. -/
def content_patterns : List ContentPattern :=
  [{ keywords := strs ["guide", "comprehensive", "overview", "introduction"],
     weight_multiplier := 1.5, content_type := "overview".toList },
   { keywords := strs ["activities", "adventures", "things", "do", "outdoor", "sports"],
     weight_multiplier := 1.4, content_type := "activities".toList },
   { keywords := strs ["food", "culinary", "cuisine", "dining", "restaurants", "cooking"],
     weight_multiplier := 1.3, content_type := "culinary".toList },
   { keywords := strs ["hotels", "accommodation", "stay", "lodging", "booking"],
     weight_multiplier := 1.2, content_type := "accommodation".toList },
   { keywords := strs ["transportation", "travel", "getting", "around", "logistics"],
     weight_multiplier := 1.1, content_type := "transportation".toList },
   { keywords := strs ["tips", "advice", "tricks", "recommendations", "suggestions"],
     weight_multiplier := 1.3, content_type := "tips".toList },
   { keywords := strs ["nightlife", "entertainment", "bars", "clubs", "party"],
     weight_multiplier := 1.2, content_type := "entertainment".toList },
   { keywords := strs ["cultural", "culture", "historical", "history", "heritage"],
     weight_multiplier := 1.1, content_type := "cultural".toList }]

/-- Keyword score: sum of table weights over the tokens (`main.py` 207-210). -/
def keywordScore (ws : List (List Char)) : Nat :=
  (ws.map (fun w => (keywordWeight w).getD 0)).sum

/-- Persona adjustment of the context multiplier (`main.py` 216-218). -/
def personaBonus (pt : PersonaType) (full_text : List Char) : ℚ :=
  match pt with
  | .travel_professional =>
    if phraseAny full_text (strs ["guide", "comprehensive", "planning"]) then 0.3 else 0
  | _ => 0

/-- Group adjustment of the context multiplier (`main.py` 221-223). -/
def groupBonus (gt : GroupType) (full_text : List Char) : ℚ :=
  match gt with
  | .group => if phraseAny full_text (strs ["group", "friends", "together"]) then 0.4 else 0
  | _ => 0

/-- Age-group adjustment of the context multiplier (`main.py` 226-231). -/
def ageBonus (ag : AgeGroup) (full_text : List Char) : ℚ :=
  match ag with
  | .young_adult =>
    if phraseAny full_text (strs ["nightlife", "adventure", "budget", "student"]) then 0.3 else 0
  | .family =>
    if phraseAny full_text (strs ["family", "safe", "activities", "educational"]) then 0.3 else 0
  | _ => 0

/-- Budget adjustment of the context multiplier (`main.py` 234-239). -/
def budgetBonus (bl : BudgetLevel) (full_text : List Char) : ℚ :=
  match bl with
  | .budget =>
    if phraseAny full_text (strs ["budget", "cheap", "affordable", "tips"]) then 0.2 else 0
  | .luxury =>
    if phraseAny full_text (strs ["luxury", "premium", "exclusive", "high-end"]) then 0.2 else 0
  | _ => 0

/-- Per-activity-preference adjustment (`main.py` 242-250); the code's if/elif
chain gives no bonus for the relaxation and nature preferences. -/
def prefBonus (a : Activity) (full_text : List Char) : ℚ :=
  match a with
  | .adventure => if phraseAny full_text (strs ["adventure", "outdoor", "active"]) then 0.2 else 0
  | .cultural => if phraseAny full_text (strs ["cultural", "museum", "historical"]) then 0.2 else 0
  | .culinary => if phraseAny full_text (strs ["food", "culinary", "restaurant"]) then 0.2 else 0
  | .nightlife =>
    if phraseAny full_text (strs ["nightlife", "entertainment", "bars"]) then 0.2 else 0
  | _ => 0

/-- The context multiplier: starts at 1.0 and accumulates the independent
additive adjustments (`main.py` 213-250). -/
def contextMultiplier (context : Context) (full_text : List Char) : ℚ :=
  1 + personaBonus context.persona_type full_text
    + groupBonus context.group_type full_text
    + ageBonus context.age_group full_text
    + budgetBonus context.budget_level full_text
    + (context.activity_preferences.map (fun a => prefBonus a full_text)).sum

/-- Pattern-based bonus (`main.py` 253-260): per pattern, the number of its
keywords occurring as substrings of the text, times the pattern's weight
multiplier, times 5; only added when at least one keyword hits (which is how
the code writes it; a zero hit count would contribute 0 anyway). -/
def patternBonus (full_text : List Char) : ℚ :=
  (content_patterns.map (fun p =>
    let pattern_matches : Nat := (p.keywords.filter (fun k => hasSub full_text k)).length
    if 0 < pattern_matches then (pattern_matches : ℚ) * p.weight_multiplier * 5 else 0)).sum

/-- `DynamicTravelModel.calculate_dynamic_relevance` (`main.py` 193-266).
`document_name` and `page_num` are accepted and ignored, as in the code. -/
def calculate_dynamic_relevance (text title : List Char) (context : Context)
    (document_name : List Char) (page_num : Nat) : ℚ :=
  if text.isEmpty && title.isEmpty then 0
  else
    let full_text := lowerL (title ++ ' ' :: text)
    let words := findWords full_text
    if words.isEmpty then 0
    else
      let base_score : ℚ := ((keywordScore words : ℚ) / (words.length : ℚ)) * 10
      let final_score := (base_score + patternBonus full_text) * contextMultiplier context full_text
      min final_score 100

/-! Content Synthesizer (`extract_dynamic_content` and
`_generate_dynamic_fallback`, `main.py` 268-429) -/

/-- The characters of the bullet-cleanup regex classes in `main.py` lines
320-321 (the source file holds the UTF-8 characters U+00E2, U+20AC, U+00A2,
U+00C2, U+00B7). -/
def bulletChars : List Char := ['â', '€', '¢', 'Â', '·']

/-- Python `re.sub(r'\s+', ' ', l)`: collapse whitespace runs to one space.
The boolean argument records whether the previous character was whitespace. -/
def collapseWsAux : Bool → List Char → List Char
  | _, [] => []
  | prevSpc, c :: rest =>
    if isSpc c then
      if prevSpc then collapseWsAux true rest
      else ' ' :: collapseWsAux true rest
    else c :: collapseWsAux false rest

/-- Python `re.sub(r'\s+', ' ', l)`. -/
def collapseWs (l : List Char) : List Char := collapseWsAux false l

/-- Python `re.sub(r'^[...;]\s*', '', l)` (`main.py` line 320): drop one
leading bullet character or semicolon together with the whitespace after it. -/
def stripLeadBullet (l : List Char) : List Char :=
  match l with
  | [] => []
  | c :: rest => if (';' :: bulletChars).contains c then dropSpc rest else l

/-- Python `re.sub(r'[...]', '; ', l)` (`main.py` line 321): replace each
bullet character by a semicolon and a space. -/
def bulletsToSemi : List Char → List Char
  | [] => []
  | c :: rest =>
    if bulletChars.contains c then ';' :: ' ' :: bulletsToSemi rest
    else c :: bulletsToSemi rest

/-- State machine for `re.sub(r';\s*;', ';', l)` (`main.py` line 322), with
Python's left-to-right non-overlapping match semantics.  `none` is the normal
state; `some buf` means a `;` was emitted and `buf` holds (reversed) the
whitespace seen since it. -/
def collapseSemisAux : Option (List Char) → List Char → List Char
  | none, [] => []
  | some buf, [] => buf.reverse
  | none, c :: rest =>
    if c == ';' then ';' :: collapseSemisAux (some []) rest
    else c :: collapseSemisAux none rest
  | some buf, c :: rest =>
    if c == ';' then collapseSemisAux none rest
    else if isSpc c then collapseSemisAux (some (c :: buf)) rest
    else buf.reverse ++ c :: collapseSemisAux none rest

/-- Python `re.sub(r';\s*;', ';', l)`. -/
def collapseSemis (l : List Char) : List Char := collapseSemisAux none l

/-- The block-scanning loop of `extract_dynamic_content` (`main.py` 293-313):
sticky scope (`section_found`), skip of the exact title block, acceptance of
blocks longer than 20 characters that are not purely numeric, and the break
once the joined content exceeds the target length. -/
def scanBlocks (section_title : List Char) (target : Nat) :
    List (List Char) → Bool → List (List Char) → List (List Char)
  | [], _, acc => acc
  | b :: rest, section_found, acc =>
    let block_text := stripL b
    if hasSub (lowerL block_text) (lowerL section_title) ||
       (splitWs (lowerL section_title)).any
         (fun w => decide (3 < w.length) && hasSub (lowerL block_text) w) ||
       section_found then
      if stripL (lowerL block_text) == stripL (lowerL section_title) then
        scanBlocks section_title target rest true acc
      else
        let acc2 :=
          if decide (20 < block_text.length) &&
             !(!block_text.isEmpty && block_text.all Char.isDigit) then
            acc ++ [block_text]
          else acc
        if target < (joinSp acc2).length then acc2
        else scanBlocks section_title target rest true acc2
    else scanBlocks section_title target rest section_found acc

/-- The section classification of `_generate_dynamic_fallback`
(`main.py` 346-361). -/
inductive SectionType
  | general
  | guide
  | activities
  | culinary
  | accommodation
  | tips
  | entertainment
  | transportation
deriving DecidableEq, Repr

/-- `main.py` 346-361: classify the section by keyword match on the
lower-cased title; the if/elif order of the code is kept. -/
def sectionTypeOf (title_lower : List Char) : SectionType :=
  if phraseAny title_lower (strs ["guide", "comprehensive", "overview"]) then .guide
  else if phraseAny title_lower (strs ["activities", "things", "adventures"]) then .activities
  else if phraseAny title_lower (strs ["food", "culinary", "dining", "restaurant"]) then .culinary
  else if phraseAny title_lower (strs ["accommodation", "hotels", "stay"]) then .accommodation
  else if phraseAny title_lower (strs ["tips", "advice", "packing"]) then .tips
  else if phraseAny title_lower (strs ["nightlife", "entertainment", "bars"]) then .entertainment
  else if phraseAny title_lower (strs ["transportation", "travel", "getting"]) then
    .transportation
  else .general

/-- Python `context.get('group_size', 'multiple')` rendered into an f-string. -/
def groupSizeText (context : Context) : List Char :=
  match context.group_size with
  | some n => (Nat.repr n).toList
  | none => "multiple".toList

/-- Python `s.replace('_', ' ')` on the trip-duration string. -/
def underscoreToSpace (l : List Char) : List Char :=
  l.map (fun c => if c == '_' then ' ' else c)

/-- `DynamicTravelModel._generate_dynamic_fallback` (`main.py` 337-429).  The
`pdf_path` argument only feeds the unused local `doc_name` in the code; the
content depends on the section title and the context.  Note the if/elif chain
of lines 364-419 has no branches for the `accommodation` and `transportation`
section types, which therefore fall into the general `else` branch. -/
def generate_dynamic_fallback (section_title pdf_path : List Char) (context : Context) :
    List Char :=
  let title_lower := lowerL section_title
  let content_parts : List (List Char) :=
    match sectionTypeOf title_lower with
    | .guide =>
      ["This ".toList ++ title_lower ++
        " provides comprehensive information for planning your trip.".toList]
      ++ (if context.group_type = .group then
            ["Designed specifically for group travel, with recommendations suitable for ".toList
              ++ groupSizeText context ++ " travelers.".toList]
          else [])
      ++ (if context.age_group = .young_adult then
            ["Includes budget-friendly options and activities popular with young travelers.".toList]
          else [])
      ++ (if context.age_group = .family then
            [("Features family-friendly activities, educational experiences, and " ++
              "multi-generational bonding opportunities that cater to different age groups.").toList]
          else [])
    | .activities =>
      ["Explore a variety of ".toList ++ title_lower ++
        " designed to enhance your travel experience.".toList]
      ++ (if Activity.adventure ∈ context.activity_preferences then
            [("Features outdoor adventures, active experiences, and thrilling activities " ++
              "perfect for creating lasting memories.").toList]
          else [])
      ++ (if Activity.cultural ∈ context.activity_preferences ∨ context.age_group = .family then
            [("Includes cultural experiences, historical sites, museums, and local " ++
              "traditions that provide educational value.").toList]
          else [])
      ++ (if context.group_type = .group then
            [("Group-friendly activities that everyone can enjoy together, with options " ++
              "for different skill levels and interests.").toList]
          else [])
      ++ (if hasSub title_lower ("coastal".toList) || hasSub title_lower ("beach".toList) then
            [("Beach activities include swimming, sunbathing, water sports, and coastal " ++
              "walks. Popular beaches offer amenities like restaurants, equipment " ++
              "rentals, and lifeguard services.").toList]
          else [])
    | .culinary =>
      ["Discover the ".toList ++ title_lower ++
        " that showcase local flavors and dining traditions.".toList,
       ("From traditional dishes to modern cuisine, explore cooking classes, food " ++
         "tours, and restaurant recommendations.").toList]
      ++ (if context.budget_level = .budget then
            [("Includes affordable dining options, local food markets, and " ++
              "budget-friendly restaurants that offer authentic experiences.").toList]
          else if context.budget_level = .luxury then
            [("Features fine dining establishments, exclusive culinary experiences, and " ++
              "renowned restaurants with exceptional service.").toList]
          else [])
      ++ (if context.age_group = .family then
            [("Family-friendly restaurants with varied menus, child-appropriate options, " ++
              "and welcoming atmospheres for all ages.").toList]
          else [])
    | .tips =>
      ["Essential ".toList ++ title_lower ++
        " to help you prepare for and enjoy your trip.".toList]
      ++ (if context.age_group = .young_adult then
            [("Student-friendly tips for budget travel, money-saving strategies, and " ++
              "making the most of your experience.").toList]
          else [])
      ++ (if context.group_type = .group then
            [("Group travel considerations including coordination tips, shared expenses, " ++
              "and communication strategies.").toList]
          else [])
      ++ (if context.age_group = .family then
            [("Family travel essentials including packing for different ages, safety " ++
              "considerations, and keeping everyone entertained.").toList]
          else [])
      ++ [("Packing recommendations include versatile clothing, essential documents, " ++
            "first aid supplies, and items specific to your planned activities.").toList]
    | .entertainment =>
      ["Experience the vibrant ".toList ++ title_lower ++
        " scene with options ranging from casual to upscale venues.".toList]
      ++ (if context.age_group = .young_adult then
            [("Popular with college students and young travelers, featuring trendy bars, " ++
              "clubs, live music venues, and social hotspots.").toList]
          else [])
      ++ (if context.age_group = .family then
            [("Family-appropriate entertainment including cultural performances, " ++
              "festivals, and evening activities suitable for all ages.").toList]
          else [])
      ++ [("Includes live music venues, entertainment districts, cultural shows, and " ++
            "nighttime activities with something for every taste.").toList]
    | _ =>
      ["This section covers ".toList ++ title_lower ++
        " with practical information and recommendations.".toList]
      ++ (if context.persona_type = .travel_professional then
            [("Provides detailed insights for professional travel planning and client " ++
              "recommendations.").toList]
          else [])
      ++ (if context.age_group = .family then
            ["Includes considerations for traveling with multiple generations and varying interests.".toList]
          else [])
  let closing : List (List Char) :=
    if !context.trip_duration.isEmpty && hasSub context.trip_duration ("days".toList) then
      ["Perfect for planning a ".toList ++ underscoreToSpace context.trip_duration ++
        " itinerary with optimal time management and efficient use of your vacation time.".toList]
    else if !context.trip_duration.isEmpty && hasSub context.trip_duration ("weeks".toList) then
      ["Ideal for extended ".toList ++ underscoreToSpace context.trip_duration ++
        " stays that allow for deeper exploration and immersive experiences.".toList]
    else []
  joinSp (content_parts ++ closing)

/-- `DynamicTravelModel.extract_dynamic_content` (`main.py` 268-335).  The
external PDF document is modelled as an `Except`-valued input: `.error ()`
stands for any provider exception (caught by the try/except of lines 272-335),
and `.ok pages` gives the position-ordered text blocks of each page. -/
def extract_dynamic_content (doc : Except Unit (List (List (List Char))))
    (page_num : Nat) (section_title pdf_path : List Char) (context : Context) : List Char :=
  match doc with
  | .error _ => generate_dynamic_fallback section_title pdf_path context
  | .ok pages =>
    if pages.length ≤ page_num then generate_dynamic_fallback section_title pdf_path context
    else
      let text_blocks := pages.getD page_num []
      let content_length_target : Nat :=
        300 + (if context.group_type = .group then 100 else 0)
            + (if context.persona_type = .travel_professional then 150 else 0)
      let extracted_content := scanBlocks section_title content_length_target text_blocks false []
      if extracted_content.isEmpty then
        generate_dynamic_fallback section_title pdf_path context
      else
        let result :=
          stripL (collapseSemis (bulletsToSemi (stripLeadBullet (collapseWs
            (joinSp extracted_content)))))
        if result.length < 100 then generate_dynamic_fallback section_title pdf_path context
        else result

/-! Ranking Pipeline and Output Assembler (`main.py` 485-654) -/

/-- One outline entry as returned by the external structure extractor
(`docudots` `analyze_pdf`): heading text, page number, level. -/
structure RawSection where
  text : List Char
  page : Nat
  level : Nat
deriving DecidableEq, Repr

/-- The structure extractor's result: a title plus an ordered outline. -/
structure StructuredContent where
  title : List Char
  outline : List RawSection
deriving DecidableEq, Repr

/-- An outline entry enhanced with the dynamic score and content
(`main.py` 520-524). -/
structure EnhancedSection where
  text : List Char
  page : Nat
  level : Nat
  relevance_score : ℚ
  dynamic_content : List Char
deriving DecidableEq, Repr

/-- One processed document (`main.py` 527-533; only the fields read by the
ranking step are kept). -/
structure ProcessedDoc where
  document_name : List Char
  outline : List EnhancedSection
deriving DecidableEq, Repr

/-- One input document of the pipeline: its file name, the (fallible)
structure-extractor result, and the (fallible) page-text provider data used by
`extract_dynamic_content`. -/
structure PDFInput where
  name : List Char
  analysis : Except Unit StructuredContent
  pages : Except Unit (List (List (List Char)))

/-- Per-section enhancement (`main.py` 506-525): the section title is passed
to the scorer as both text and title, and the synthesizer is invoked on the
section's page. -/
def enhanceSection (context : Context) (inp : PDFInput) (s : RawSection) : EnhancedSection :=
  { text := s.text
    page := s.page
    level := s.level
    relevance_score := calculate_dynamic_relevance s.text s.text context inp.name s.page
    dynamic_content := extract_dynamic_content inp.pages s.page s.text inp.name context }

/-- `process_documents_dynamic` (`main.py` 485-550): each document is handled
inside a try/except; a structure-extractor failure skips the document
(`continue`) and processing moves on to the remaining documents. -/
def process_documents_dynamic (pdf_files : List PDFInput) (context : Context) :
    List ProcessedDoc :=
  pdf_files.filterMap (fun inp =>
    match inp.analysis with
    | .error _ => none
    | .ok structured_content =>
      some { document_name := inp.name
             outline := structured_content.outline.map (enhanceSection context inp) })

/-- One pooled section record (`main.py` 576-583). -/
structure SectionRec where
  document_name : List Char
  page_number : Nat
  section_title : List Char
  dynamic_content : List Char
  level : Nat
  relevance_score : ℚ
deriving DecidableEq, Repr

/-- Flattening of all documents' outlines into one pooled list, in document
order and outline order (`main.py` 560-585). -/
def allSections (processed_documents : List ProcessedDoc) : List SectionRec :=
  processed_documents.flatMap (fun doc =>
    doc.outline.map (fun s =>
      { document_name := doc.document_name
        page_number := s.page
        section_title := s.text
        dynamic_content := s.dynamic_content
        level := s.level
        relevance_score := s.relevance_score }))

/-- Stable descending insertion: the new element goes after every
already-placed element whose score is at least as large. -/
def insertDesc (x : SectionRec) : List SectionRec → List SectionRec
  | [] => [x]
  | y :: ys => if y.relevance_score < x.relevance_score then x :: y :: ys
               else y :: insertDesc x ys

/-- Model of Python `sorted(l, key=lambda x: x['relevance_score'],
reverse=True)` (`main.py` 588).  Python's sort is stable and `reverse=True`
keeps equal-key elements in their original order; a left-to-right stable
descending insertion sort realises exactly that specification. -/
def sortDesc (l : List SectionRec) : List SectionRec :=
  l.foldl (fun acc x => insertDesc x acc) []

/-- `analyze_and_rank_sections` (`main.py` 553-601); the persona, job, model
and context arguments of the Python function only feed console logging. -/
def analyze_and_rank_sections (processed_documents : List ProcessedDoc) : List SectionRec :=
  sortDesc (allSections processed_documents)

/-- One entry of the `extracted_sections` output array (`main.py` 631-636). -/
structure ExtractedSection where
  document : List Char
  section_title : List Char
  importance_rank : Nat
  page_number : Nat
deriving DecidableEq, Repr

/-- One entry of the `subsection_analysis` output array (`main.py` 642-646). -/
structure AnalysisItem where
  document : List Char
  refined_text : List Char
  page_number : Nat
deriving DecidableEq, Repr

/-- `generate_dynamic_output` (`main.py` 604-654), restricted to the two
section arrays of the output record (the metadata block and the JSON file
writing are I/O glue).  The top five ranked sections are sliced off and both
arrays are built from that same slice; `importance_rank` comes from
`enumerate(top_5_sections, 1)`. -/
def generate_dynamic_output (ranked_sections : List SectionRec) :
    List ExtractedSection × List AnalysisItem :=
  let top_5_sections := ranked_sections.take 5
  let extracted_sections := top_5_sections.enum.map (fun p =>
    { document := p.2.document_name
      section_title := p.2.section_title
      importance_rank := p.1 + 1
      page_number := p.2.page_number })
  let subsection_analysis := top_5_sections.map (fun s =>
    { document := s.document_name
      refined_text := s.dynamic_content
      page_number := s.page_number })
  (extracted_sections, subsection_analysis)

/-! Spec-side formulation of the scoring formula (spec section 4.2)

These definitions follow the WORDS of the specification, to be compared with
the code-side `calculate_dynamic_relevance` above (claim C3). -/

/-- Spec 4.2 step 3: base_score = (keyword_score / token_count) * 10. -/
def spec_base_score (toks : List (List Char)) : ℚ :=
  ((keywordScore toks : ℚ) / (toks.length : ℚ)) * 10

/-- Spec 4.2 step 4: for each content-pattern definition, count phrase hits
and accumulate hits x multiplier x 5 across all pattern definitions. -/
def spec_pattern_bonus (full_text : List Char) : ℚ :=
  (content_patterns.map (fun p =>
    ((p.keywords.filter (fun k => hasSub full_text k)).length : ℚ) *
      p.weight_multiplier * 5)).sum

/-- Spec 4.2 step 6: final_score = (base_score + pattern_bonus) x
context_multiplier, clamped to a maximum of 100.0. -/
def spec_final_score (text title : List Char) (context : Context) : ℚ :=
  let full_text := lowerL (title ++ ' ' :: text)
  let toks := findWords full_text
  min ((spec_base_score toks + spec_pattern_bonus full_text) *
    contextMultiplier context full_text) 100

/-! Concrete inputs used by the claim-level theorems below. -/

/-- The persona text of the spec's worked example (claim C2). -/
def c2_persona : List Char := "Travel blogger".toList

/-- The job text of the spec's worked example (claim C2). -/
def c2_job : List Char :=
  ("Plan a 4-day trip for a group of 6 college friends to a coastal city, " ++
   "focusing on budget nightlife and food").toList

/-- A document whose structure extraction fails (claim C8). -/
def c8_bad_input : PDFInput :=
  { name := "broken.pdf".toList, analysis := .error (), pages := .error () }

/-- A document whose structure extraction succeeds with an empty outline
(claim C8). -/
def c8_good_input : PDFInput :=
  { name := "ok.pdf".toList
    analysis := .ok { title := "T".toList, outline := [] }
    pages := .ok [] }

/-! Helper lemmas and claim-level theorems. -/


theorem leadsWith_iff {n h : List Char} : leadsWith n h = true ↔ n <+: h := by
  induction n generalizing h with
  | nil => simp [leadsWith]
  | cons a as ih =>
    cases h with
    | nil => simp [leadsWith]
    | cons b bs => simp [leadsWith, ih, List.cons_prefix_cons]

theorem hasSub_iff {h n : List Char} : hasSub h n = true ↔ n <:+: h := by
  induction h with
  | nil => simp [hasSub, List.isEmpty_iff, List.infix_nil]
  | cons c t ih =>
    rw [hasSub]
    simp [leadsWith_iff, ih, List.infix_cons_iff]

theorem takeDigits_fst_digits : ∀ l : List Char, (takeDigits l).1.all Char.isDigit = true := by
  intro l
  induction l with
  | nil => rfl
  | cons c rest ih =>
    rw [takeDigits]
    split
    · rename_i hc
      simpa [List.all_cons, hc] using ih
    · rfl

theorem searchDur_some {lit : List Char} :
    ∀ {l w : List Char}, searchDur lit l = some w → w ≠ [] ∧ w.all Char.isDigit = true := by
  intro l
  induction l with
  | nil => intro w hw; simp [searchDur] at hw
  | cons c rest ih =>
    intro w hw
    rw [searchDur] at hw
    split at hw
    · rename_i hcond
      obtain ⟨h1, _⟩ := Bool.and_eq_true_iff.mp hcond
      cases hw
      refine ⟨?_, takeDigits_fst_digits _⟩
      intro hnil
      rw [hnil] at h1
      simp at h1
    · exact ih hw

/-- Claim C10: for every persona and job text, the Context Analyzer never
produces trip_duration long_weekend (the weekend pattern is tried first and
matches every text containing the phrase long weekend); the result is always
unknown, weekend, a digit string followed by _days, or a digit string followed
by _weeks. -/
theorem trip_duration_shape (persona job : List Char) :
    (analyze_persona_job_context persona job).trip_duration ≠ "long_weekend".toList ∧
    ((analyze_persona_job_context persona job).trip_duration = "unknown".toList ∨
     (analyze_persona_job_context persona job).trip_duration = "weekend".toList ∨
     ∃ w : List Char, w ≠ [] ∧ w.all Char.isDigit = true ∧
       ((analyze_persona_job_context persona job).trip_duration = w ++ "_days".toList ∨
        (analyze_persona_job_context persona job).trip_duration = w ++ "_weeks".toList)) := by
  have hdur : (analyze_persona_job_context persona job).trip_duration =
      trip_duration_of (lowerL (persona ++ ' ' :: job)) := rfl
  rw [hdur]
  generalize lowerL (persona ++ ' ' :: job) = l
  unfold trip_duration_of
  cases hd : searchDur ("day".toList) l with
  | some w =>
    obtain ⟨hne, hdig⟩ := searchDur_some hd
    dsimp only
    constructor
    · intro he
      cases w with
      | nil => exact hne rfl
      | cons c cs =>
        rw [List.cons_append] at he
        have hc : c = 'l' := by
          have := congrArg List.head? he
          simpa using this
        rw [List.all_cons, Bool.and_eq_true_iff] at hdig
        rw [hc] at hdig
        simp at hdig
    · exact Or.inr (Or.inr ⟨w, hne, hdig, Or.inl rfl⟩)
  | none =>
    cases hwk : searchDur ("week".toList) l with
    | some w =>
      obtain ⟨hne, hdig⟩ := searchDur_some hwk
      dsimp only
      constructor
      · intro he
        cases w with
        | nil => exact hne rfl
        | cons c cs =>
          rw [List.cons_append] at he
          have hc : c = 'l' := by
            have := congrArg List.head? he
            simpa using this
          rw [List.all_cons, Bool.and_eq_true_iff] at hdig
          rw [hc] at hdig
          simp at hdig
      · exact Or.inr (Or.inr ⟨w, hne, hdig, Or.inr rfl⟩)
    | none =>
      cases hwe : hasSub l ("weekend".toList) with
      | true =>
        dsimp only
        simp only [hwe, if_true]
        refine ⟨by decide, ?_⟩
        simp
      | false =>
        cases hlw : hasSub l ("long weekend".toList) with
        | true =>
          exfalso
          have h1 : ("long weekend".toList) <:+: l := hasSub_iff.mp hlw
          have h2 : ("weekend".toList) <:+: ("long weekend".toList) :=
            hasSub_iff.mp (by decide)
          have h3 : ("weekend".toList) <:+: l := h2.trans h1
          rw [← hasSub_iff] at h3
          rw [hwe] at h3
          exact Bool.false_ne_true h3
        | false =>
          dsimp only
          simp only [hwe, hlw, Bool.false_eq_true, if_false]
          refine ⟨by decide, ?_⟩
          simp



/-- Evaluation form of the scorer on non-degenerate input. -/
theorem calculate_eval (text title : List Char) (context : Context)
    (document_name : List Char) (page_num : Nat)
    (h1 : (text.isEmpty && title.isEmpty) = false)
    (h2 : (findWords (lowerL (title ++ ' ' :: text))).isEmpty = false) :
    calculate_dynamic_relevance text title context document_name page_num =
      min ((((keywordScore (findWords (lowerL (title ++ ' ' :: text))) : ℚ) /
            ((findWords (lowerL (title ++ ' ' :: text))).length : ℚ)) * 10 +
            patternBonus (lowerL (title ++ ' ' :: text))) *
          contextMultiplier context (lowerL (title ++ ' ' :: text))) 100 := by
  unfold calculate_dynamic_relevance
  simp only [h1, h2, Bool.false_eq_true, if_false]

theorem weight_multiplier_nonneg : ∀ p ∈ content_patterns, 0 ≤ p.weight_multiplier := by
  intro p hp
  fin_cases hp <;> norm_num

theorem patternBonus_nonneg (full_text : List Char) : 0 ≤ patternBonus full_text := by
  apply List.sum_nonneg
  intro x hx
  simp only [patternBonus, List.mem_map] at hx
  obtain ⟨p, hp, rfl⟩ := hx
  split
  · apply mul_nonneg (mul_nonneg (by positivity) (weight_multiplier_nonneg p hp)) (by norm_num)
  · exact le_refl 0

theorem personaBonus_nonneg (pt : PersonaType) (ft : List Char) : 0 ≤ personaBonus pt ft := by
  cases pt <;> simp only [personaBonus] <;> (try split) <;> norm_num

theorem groupBonus_nonneg (gt : GroupType) (ft : List Char) : 0 ≤ groupBonus gt ft := by
  cases gt <;> simp only [groupBonus] <;> (try split) <;> norm_num

theorem ageBonus_nonneg (ag : AgeGroup) (ft : List Char) : 0 ≤ ageBonus ag ft := by
  cases ag <;> simp only [ageBonus] <;> (try split) <;> norm_num

theorem budgetBonus_nonneg (bl : BudgetLevel) (ft : List Char) : 0 ≤ budgetBonus bl ft := by
  cases bl <;> simp only [budgetBonus] <;> (try split) <;> norm_num

theorem prefBonus_nonneg (a : Activity) (ft : List Char) : 0 ≤ prefBonus a ft := by
  cases a <;> simp only [prefBonus] <;> (try split) <;> norm_num

theorem contextMultiplier_nonneg (context : Context) (ft : List Char) :
    0 ≤ contextMultiplier context ft := by
  unfold contextMultiplier
  have h1 := personaBonus_nonneg context.persona_type ft
  have h2 := groupBonus_nonneg context.group_type ft
  have h3 := ageBonus_nonneg context.age_group ft
  have h4 := budgetBonus_nonneg context.budget_level ft
  have h5 : 0 ≤ ((context.activity_preferences.map (fun a => prefBonus a ft)).sum : ℚ) := by
    apply List.sum_nonneg
    intro x hx
    simp only [List.mem_map] at hx
    obtain ⟨a, _, rfl⟩ := hx
    exact prefBonus_nonneg a ft
  linarith

/-- Claim C4: for every title, body text, context and document/page
identifiers, the relevance score lies in the closed interval [0, 100]; the
final min with 100 caps arbitrarily keyword-rich texts. -/
theorem relevance_score_in_range (text title : List Char) (context : Context)
    (document_name : List Char) (page_num : Nat) :
    0 ≤ calculate_dynamic_relevance text title context document_name page_num ∧
    calculate_dynamic_relevance text title context document_name page_num ≤ 100 := by
  unfold calculate_dynamic_relevance
  by_cases h1 : (text.isEmpty && title.isEmpty) = true
  · simp only [h1, if_true]
    norm_num
  · rw [Bool.not_eq_true] at h1
    simp only [h1, Bool.false_eq_true, if_false]
    by_cases h2 : (findWords (lowerL (title ++ ' ' :: text))).isEmpty = true
    · simp only [h2, if_true]
      norm_num
    · rw [Bool.not_eq_true] at h2
      simp only [h2, Bool.false_eq_true, if_false]
      constructor
      · apply le_min _ (by norm_num)
        apply mul_nonneg
        · apply add_nonneg
          · positivity
          · exact patternBonus_nonneg _
        · exact contextMultiplier_nonneg _ _
      · exact min_le_right _ _



/-- Claim C1 (amended): for every context and every (title, body) pair whose
lower-cased concatenation contains no alphabetic token of length at least 3
from the keyword table AND no content-pattern phrase as a substring, the
relevance score is exactly 0, regardless of the context. -/
theorem zero_when_no_signal (text title : List Char) (context : Context)
    (document_name : List Char) (page_num : Nat)
    (hkw : ∀ w ∈ findWords (lowerL (title ++ ' ' :: text)), keywordWeight w = none)
    (hpat : ∀ p ∈ content_patterns, ∀ k ∈ p.keywords,
      hasSub (lowerL (title ++ ' ' :: text)) k = false) :
    calculate_dynamic_relevance text title context document_name page_num = 0 := by
  have hks : keywordScore (findWords (lowerL (title ++ ' ' :: text))) = 0 := by
    unfold keywordScore
    apply List.sum_eq_zero
    intro x hx
    simp only [List.mem_map] at hx
    obtain ⟨w, hw, rfl⟩ := hx
    rw [hkw w hw]
    rfl
  have hpb : patternBonus (lowerL (title ++ ' ' :: text)) = 0 := by
    unfold patternBonus
    apply List.sum_eq_zero
    intro x hx
    simp only [List.mem_map] at hx
    obtain ⟨p, hp, rfl⟩ := hx
    have hfe : p.keywords.filter (fun k => hasSub (lowerL (title ++ ' ' :: text)) k) = [] := by
      apply List.filter_eq_nil_iff.mpr
      intro k hk
      simp [hpat p hp k hk]
    simp [hfe]
  unfold calculate_dynamic_relevance
  by_cases h1 : (text.isEmpty && title.isEmpty) = true
  · simp only [h1, if_true]
  · rw [Bool.not_eq_true] at h1
    simp only [h1, Bool.false_eq_true, if_false]
    by_cases h2 : (findWords (lowerL (title ++ ' ' :: text))).isEmpty = true
    · simp only [h2, if_true]
    · rw [Bool.not_eq_true] at h2
      simp only [h2, Bool.false_eq_true, if_false, hks, hpb]
      norm_num

/-- Witness for claim C1: the pair (title hello, body world) has no keyword
token and no pattern phrase, and scores 0. -/
theorem zero_when_no_signal_witness :
    (∀ w ∈ findWords (lowerL ("hello".toList ++ ' ' :: "world".toList)),
      keywordWeight w = none) ∧
    (∀ p ∈ content_patterns, ∀ k ∈ p.keywords,
      hasSub (lowerL ("hello".toList ++ ' ' :: "world".toList)) k = false) ∧
    calculate_dynamic_relevance "world".toList "hello".toList default_context [] 0 = 0 :=
  ⟨by decide, by decide,
    zero_when_no_signal "world".toList "hello".toList default_context [] 0
      (by decide) (by decide)⟩

/-- Counterexample to claim C1 as stated: the title "things" (empty body,
default context) contains no token of the keyword table, yet the score is 7,
not 0 - the phrase "things" of the activities content pattern matches, and the
pattern bonus does not require any keyword hit. -/
theorem no_keyword_token_nonzero_score :
    (∀ w ∈ findWords (lowerL ("things".toList ++ ' ' :: ([] : List Char))),
      keywordWeight w = none) ∧
    calculate_dynamic_relevance [] ("things".toList) default_context [] 0 ≠ 0 := by
  refine ⟨by decide, ?_⟩
  have hval : calculate_dynamic_relevance [] ("things".toList) default_context [] 0 = 7 := by
    rw [calculate_eval _ _ _ _ _ (by decide) (by decide)]
    have hks : keywordScore (findWords (lowerL ("things".toList ++ ' ' :: ([] : List Char)))) = 0 := by
      decide
    have hlen : (findWords (lowerL ("things".toList ++ ' ' :: ([] : List Char)))).length = 1 := by
      decide
    have hcm : contextMultiplier default_context
        (lowerL ("things".toList ++ ' ' :: ([] : List Char))) = 1 := by
      simp [contextMultiplier, personaBonus, groupBonus, ageBonus, budgetBonus, default_context]
    have hpb : patternBonus (lowerL ("things".toList ++ ' ' :: ([] : List Char))) = 7 := by
      have hp1 : ((strs ["guide", "comprehensive", "overview", "introduction"]).filter
          (fun k => hasSub (lowerL ("things".toList ++ ' ' :: ([] : List Char))) k)).length
          = 0 := by decide
      have hp2 : ((strs ["activities", "adventures", "things", "do", "outdoor", "sports"]).filter
          (fun k => hasSub (lowerL ("things".toList ++ ' ' :: ([] : List Char))) k)).length
          = 1 := by decide
      have hp3 : ((strs ["food", "culinary", "cuisine", "dining", "restaurants", "cooking"]).filter
          (fun k => hasSub (lowerL ("things".toList ++ ' ' :: ([] : List Char))) k)).length
          = 0 := by decide
      have hp4 : ((strs ["hotels", "accommodation", "stay", "lodging", "booking"]).filter
          (fun k => hasSub (lowerL ("things".toList ++ ' ' :: ([] : List Char))) k)).length
          = 0 := by decide
      have hp5 : ((strs ["transportation", "travel", "getting", "around", "logistics"]).filter
          (fun k => hasSub (lowerL ("things".toList ++ ' ' :: ([] : List Char))) k)).length
          = 0 := by decide
      have hp6 : ((strs ["tips", "advice", "tricks", "recommendations", "suggestions"]).filter
          (fun k => hasSub (lowerL ("things".toList ++ ' ' :: ([] : List Char))) k)).length
          = 0 := by decide
      have hp7 : ((strs ["nightlife", "entertainment", "bars", "clubs", "party"]).filter
          (fun k => hasSub (lowerL ("things".toList ++ ' ' :: ([] : List Char))) k)).length
          = 0 := by decide
      have hp8 : ((strs ["cultural", "culture", "historical", "history", "heritage"]).filter
          (fun k => hasSub (lowerL ("things".toList ++ ' ' :: ([] : List Char))) k)).length
          = 0 := by decide
      simp only [patternBonus, content_patterns, List.map_cons, List.map_nil,
        List.sum_cons, List.sum_nil]
      rw [hp1, hp2, hp3, hp4, hp5, hp6, hp7, hp8]
      norm_num
    rw [hks, hlen, hcm, hpb]
    norm_num
  rw [hval]
  norm_num

/-- Claim C3: for every context and every (title, body) pair with at least
one alphabetic token of length at least 3, the relevance score equals
((keyword_score / token_count) * 10 + pattern_bonus) * context_multiplier
capped at 100, with pattern_bonus and context_multiplier as the spec words
state them (spec-side definitions spec_base_score, spec_pattern_bonus,
spec_final_score). -/
theorem relevance_matches_spec_formula (text title : List Char) (context : Context)
    (document_name : List Char) (page_num : Nat)
    (h : findWords (lowerL (title ++ ' ' :: text)) ≠ []) :
    calculate_dynamic_relevance text title context document_name page_num =
      spec_final_score text title context := by
  have h2 : (findWords (lowerL (title ++ ' ' :: text))).isEmpty = false := by
    cases hfe : (findWords (lowerL (title ++ ' ' :: text))).isEmpty
    · rfl
    · exact absurd (List.isEmpty_iff.mp hfe) h
  have h1 : (text.isEmpty && title.isEmpty) = false := by
    cases htx : text.isEmpty
    · simp
    · cases htt : title.isEmpty
      · simp
      · exfalso
        apply h
        rw [List.isEmpty_iff.mp htx, List.isEmpty_iff.mp htt]
        decide
  rw [calculate_eval _ _ _ _ _ h1 h2]
  have hpb : patternBonus (lowerL (title ++ ' ' :: text)) =
      spec_pattern_bonus (lowerL (title ++ ' ' :: text)) := by
    unfold patternBonus spec_pattern_bonus
    congr 1
    apply List.map_congr_left
    intro p hp
    dsimp only
    split
    · rfl
    · rename_i hz
      have : (p.keywords.filter
          (fun k => hasSub (lowerL (title ++ ' ' :: text)) k)).length = 0 :=
        Nat.eq_zero_of_not_pos hz
      rw [this]
      norm_num
  rw [hpb]
  rfl

/-- Witness for claim C3 at the concrete section title "Travel Tips". -/
theorem relevance_matches_spec_formula_witness :
    findWords (lowerL ("Travel Tips".toList ++ ' ' :: "Travel Tips".toList)) ≠ [] ∧
    calculate_dynamic_relevance "Travel Tips".toList "Travel Tips".toList default_context [] 0 =
      spec_final_score "Travel Tips".toList "Travel Tips".toList default_context :=
  ⟨by decide,
    relevance_matches_spec_formula "Travel Tips".toList "Travel Tips".toList
      default_context [] 0 (by decide)⟩



/-! Lemmas about the stable descending insertion sort. -/

theorem mem_insertDesc {x z : SectionRec} :
    ∀ {l : List SectionRec}, z ∈ insertDesc x l ↔ z = x ∨ z ∈ l := by
  intro l
  induction l with
  | nil => simp [insertDesc]
  | cons y ys ih =>
    rw [insertDesc]
    split
    · simp [List.mem_cons]
    · simp only [List.mem_cons, ih]
      tauto

theorem pairwise_insertDesc {x : SectionRec} {l : List SectionRec}
    (h : l.Pairwise (fun a b => b.relevance_score ≤ a.relevance_score)) :
    (insertDesc x l).Pairwise (fun a b => b.relevance_score ≤ a.relevance_score) := by
  induction l with
  | nil => simp [insertDesc]
  | cons y ys ih =>
    rw [List.pairwise_cons] at h
    obtain ⟨hy, hys⟩ := h
    rw [insertDesc]
    split
    · rename_i hlt
      rw [List.pairwise_cons]
      refine ⟨?_, List.pairwise_cons.mpr ⟨hy, hys⟩⟩
      intro z hz
      rcases List.mem_cons.mp hz with rfl | hz'
      · exact le_of_lt hlt
      · exact le_trans (hy z hz') (le_of_lt hlt)
    · rename_i hnlt
      rw [List.pairwise_cons]
      refine ⟨?_, ih hys⟩
      intro z hz
      rcases mem_insertDesc.mp hz with rfl | hz'
      · exact le_of_not_lt hnlt
      · exact hy z hz'

theorem filter_insertDesc (s : ℚ) (x : SectionRec) :
    ∀ {l : List SectionRec},
    l.Pairwise (fun a b => b.relevance_score ≤ a.relevance_score) →
    (insertDesc x l).filter (fun z => decide (z.relevance_score = s)) =
      l.filter (fun z => decide (z.relevance_score = s)) ++
        (if x.relevance_score = s then [x] else []) := by
  intro l
  induction l with
  | nil =>
    intro _
    rw [insertDesc]
    by_cases hxs : x.relevance_score = s <;> simp [List.filter, hxs]
  | cons y ys ih =>
    intro h
    rw [List.pairwise_cons] at h
    obtain ⟨hy, hys⟩ := h
    rw [insertDesc]
    split
    · rename_i hlt
      by_cases hxs : x.relevance_score = s
      · have hempty : (y :: ys).filter (fun z => decide (z.relevance_score = s)) = [] := by
          apply List.filter_eq_nil_iff.mpr
          intro z hz
          simp only [decide_eq_true_eq]
          intro hzs
          rcases List.mem_cons.mp hz with rfl | hz'
          · rw [hxs] at hlt
            exact absurd hzs (ne_of_lt hlt)
          · rw [hxs] at hlt
            exact absurd hzs (ne_of_lt (lt_of_le_of_lt (hy z hz') hlt))
        rw [List.filter_cons_of_pos (by simp [hxs]), hempty]
        simp [hxs]
      · rw [List.filter_cons_of_neg (by simp [hxs])]
        simp [hxs]
    · rename_i hnlt
      by_cases hys' : y.relevance_score = s <;>
        simp [List.filter_cons, ih hys, hys']

theorem perm_insertDesc (x : SectionRec) : ∀ l : List SectionRec,
    (insertDesc x l).Perm (x :: l) := by
  intro l
  induction l with
  | nil => exact List.Perm.refl _
  | cons y ys ih =>
    rw [insertDesc]
    split
    · exact List.Perm.refl _
    · exact List.Perm.trans (ih.cons y) (List.Perm.swap x y ys)

theorem pairwise_sort_foldl :
    ∀ (l acc : List SectionRec),
    acc.Pairwise (fun a b => b.relevance_score ≤ a.relevance_score) →
    (l.foldl (fun acc x => insertDesc x acc) acc).Pairwise
      (fun a b => b.relevance_score ≤ a.relevance_score) := by
  intro l
  induction l with
  | nil => intro acc h; simpa using h
  | cons x xs ih =>
    intro acc h
    rw [List.foldl_cons]
    exact ih _ (pairwise_insertDesc h)

theorem filter_sort_foldl (s : ℚ) :
    ∀ (l acc : List SectionRec),
    acc.Pairwise (fun a b => b.relevance_score ≤ a.relevance_score) →
    (l.foldl (fun acc x => insertDesc x acc) acc).filter
        (fun z => decide (z.relevance_score = s)) =
      acc.filter (fun z => decide (z.relevance_score = s)) ++
        l.filter (fun z => decide (z.relevance_score = s)) := by
  intro l
  induction l with
  | nil => intro acc _; simp
  | cons x xs ih =>
    intro acc h
    rw [List.foldl_cons, ih _ (pairwise_insertDesc h), filter_insertDesc s x h,
      List.filter_cons]
    by_cases hxs : x.relevance_score = s <;> simp [hxs]

theorem perm_sort_foldl :
    ∀ (l acc : List SectionRec),
    (l.foldl (fun acc x => insertDesc x acc) acc).Perm (acc ++ l) := by
  intro l
  induction l with
  | nil => intro acc; simp
  | cons x xs ih =>
    intro acc
    rw [List.foldl_cons]
    refine List.Perm.trans (ih _) ?_
    refine List.Perm.trans ((perm_insertDesc x acc).append_right xs) ?_
    exact List.perm_middle.symm

/-- Claim C5: the ranking step returns a permutation of the pooled sections
(document order, then outline order) that is sorted by relevance score in
descending order, and for every score value the subsequence of sections at
that score keeps its original encounter order - the sort is stable. -/
theorem ranking_sorted_and_stable (processed_documents : List ProcessedDoc) :
    (analyze_and_rank_sections processed_documents).Pairwise
      (fun a b => b.relevance_score ≤ a.relevance_score) ∧
    (analyze_and_rank_sections processed_documents).Perm
      (allSections processed_documents) ∧
    ∀ s : ℚ, (analyze_and_rank_sections processed_documents).filter
        (fun z => decide (z.relevance_score = s)) =
      (allSections processed_documents).filter (fun z => decide (z.relevance_score = s)) := by
  unfold analyze_and_rank_sections sortDesc
  refine ⟨pairwise_sort_foldl _ [] (by simp), ?_, ?_⟩
  · simpa using perm_sort_foldl (allSections processed_documents) []
  · intro s
    simpa using filter_sort_foldl s (allSections processed_documents) [] (by simp)

theorem enum_map_fst_add_one (l : List SectionRec) :
    l.enum.map (fun p => p.1 + 1) = List.range' 1 l.length := by
  rw [show (fun p : ℕ × SectionRec => p.1 + 1) = ((fun i => i + 1) ∘ Prod.fst) from rfl,
    ← List.map_map, List.enum_map_fst, List.range'_eq_map_range]
  apply List.map_congr_left
  intro i _
  exact Nat.add_comm i 1

/-- Claim C6: the output assembler emits at most 5 entries in each array
(exactly min 5 N), the two arrays are index-aligned to the same top-ranked
sections (same document and page at each index, both taken from the top-5
slice of the ranked sequence), and importance_rank is exactly 1..min(5, N),
1-based, strictly increasing with no gaps. -/
theorem output_arrays_shape (ranked_sections : List SectionRec) :
    (generate_dynamic_output ranked_sections).1.length = min 5 ranked_sections.length ∧
    (generate_dynamic_output ranked_sections).1.length ≤ 5 ∧
    (generate_dynamic_output ranked_sections).2.length =
      (generate_dynamic_output ranked_sections).1.length ∧
    (generate_dynamic_output ranked_sections).1.map (fun e => e.document) =
      (ranked_sections.take 5).map (fun t => t.document_name) ∧
    (generate_dynamic_output ranked_sections).2.map (fun a => a.document) =
      (ranked_sections.take 5).map (fun t => t.document_name) ∧
    (generate_dynamic_output ranked_sections).1.map (fun e => e.page_number) =
      (ranked_sections.take 5).map (fun t => t.page_number) ∧
    (generate_dynamic_output ranked_sections).2.map (fun a => a.page_number) =
      (ranked_sections.take 5).map (fun t => t.page_number) ∧
    (generate_dynamic_output ranked_sections).1.map (fun e => e.importance_rank) =
      List.range' 1 (generate_dynamic_output ranked_sections).1.length := by
  unfold generate_dynamic_output
  dsimp only
  refine ⟨?_, ?_, ?_, ?_, ?_, ?_, ?_, ?_⟩
  · simp [List.length_take]
  · simp [List.length_take]
  · simp
  · rw [List.map_map]
    rw [show ((fun e : ExtractedSection => e.document) ∘
        (fun p : ℕ × SectionRec =>
          ({ document := p.2.document_name, section_title := p.2.section_title,
             importance_rank := p.1 + 1, page_number := p.2.page_number } : ExtractedSection))) =
      ((fun t : SectionRec => t.document_name) ∘ Prod.snd) from rfl]
    rw [← List.map_map, List.enum_map_snd]
  · rw [List.map_map]
    rfl
  · rw [List.map_map]
    rw [show ((fun e : ExtractedSection => e.page_number) ∘
        (fun p : ℕ × SectionRec =>
          ({ document := p.2.document_name, section_title := p.2.section_title,
             importance_rank := p.1 + 1, page_number := p.2.page_number } : ExtractedSection))) =
      ((fun t : SectionRec => t.page_number) ∘ Prod.snd) from rfl]
    rw [← List.map_map, List.enum_map_snd]
  · rw [List.map_map]
    rfl
  · rw [List.map_map]
    rw [show ((fun e : ExtractedSection => e.importance_rank) ∘
        (fun p : ℕ × SectionRec =>
          ({ document := p.2.document_name, section_title := p.2.section_title,
             importance_rank := p.1 + 1, page_number := p.2.page_number } : ExtractedSection))) =
      (fun p : ℕ × SectionRec => p.1 + 1) from rfl]
    rw [enum_map_fst_add_one]
    simp



theorem joinSp_cons_ne_nil {x : List Char} (hx : x ≠ []) :
    ∀ l : List (List Char), joinSp (x :: l) ≠ [] := by
  intro l
  cases l with
  | nil => simpa [joinSp] using hx
  | cons y ys =>
    rw [joinSp]
    intro he
    rcases List.append_eq_nil.mp he with ⟨_, h2⟩
    exact List.cons_ne_nil _ _ h2

theorem generate_dynamic_fallback_ne_nil (section_title pdf_path : List Char)
    (context : Context) :
    generate_dynamic_fallback section_title pdf_path context ≠ [] := by
  unfold generate_dynamic_fallback
  dsimp only
  set st := sectionTypeOf (lowerL section_title) with hst
  clear_value st
  cases st <;>
    · dsimp only
      simp only [List.append_assoc, List.singleton_append, List.cons_append]
      apply joinSp_cons_ne_nil
      simp

/-- Claim C7: for every non-empty section title, every context and every
page-text provider behaviour (failure, out-of-range page, or any page data),
the Content Synthesizer returns a non-empty string, and a provider failure
falls through to fallback synthesis, whose text is never empty. -/
theorem synthesizer_never_empty (doc : Except Unit (List (List (List Char))))
    (page_num : Nat) (section_title pdf_path : List Char) (context : Context)
    (h : section_title ≠ []) :
    extract_dynamic_content doc page_num section_title pdf_path context ≠ [] ∧
    extract_dynamic_content (Except.error ()) page_num section_title pdf_path context =
      generate_dynamic_fallback section_title pdf_path context := by
  refine ⟨?_, rfl⟩
  unfold extract_dynamic_content
  cases doc with
  | error e => exact generate_dynamic_fallback_ne_nil _ _ _
  | ok pages =>
    dsimp only
    split
    · exact generate_dynamic_fallback_ne_nil _ _ _
    · generalize (300 + (if context.group_type = GroupType.group then 100 else 0) +
          (if context.persona_type = PersonaType.travel_professional then 150 else 0) : Nat) = tgt
      split
      · exact generate_dynamic_fallback_ne_nil _ _ _
      · split
        · exact generate_dynamic_fallback_ne_nil _ _ _
        · rename_i hlen
          intro he
          rw [he] at hlen
          simp at hlen

/-- Witness for claim C7: the failing provider on the section title Tips. -/
theorem synthesizer_never_empty_witness :
    ("Tips".toList ≠ []) ∧
    (extract_dynamic_content (Except.error ()) 0 ("Tips".toList) ("doc.pdf".toList)
        default_context ≠ [] ∧
      extract_dynamic_content (Except.error ()) 0 ("Tips".toList) ("doc.pdf".toList)
          default_context =
        generate_dynamic_fallback ("Tips".toList) ("doc.pdf".toList) default_context) :=
  ⟨by decide,
    synthesizer_never_empty (Except.error ()) 0 ("Tips".toList) ("doc.pdf".toList)
      default_context (by decide)⟩

/-- Claim C8: a document on which the structure extractor raises contributes
no sections to the output, every subsequent document is still processed, and
the result contains exactly the sections of the documents that did not fail. -/
theorem failed_document_skipped (context : Context) :
    (∀ (pre post : List PDFInput) (bad : PDFInput), bad.analysis = .error () →
      process_documents_dynamic (pre ++ bad :: post) context =
        process_documents_dynamic pre context ++ process_documents_dynamic post context) ∧
    (∀ inputs : List PDFInput,
      process_documents_dynamic inputs context =
        process_documents_dynamic (inputs.filter (fun i => i.analysis.isOk)) context) := by
  constructor
  · intro pre post bad hbad
    unfold process_documents_dynamic
    rw [List.filterMap_append, List.filterMap_cons]
    rw [hbad]
  · intro inputs
    induction inputs with
    | nil => rfl
    | cons i is ih =>
      unfold process_documents_dynamic at ih ⊢
      cases hi : i.analysis with
      | error e =>
        rw [List.filterMap_cons, List.filter_cons, hi]
        simp only [Except.isOk, Bool.false_eq_true, if_false]
        exact ih
      | ok sc =>
        rw [List.filterMap_cons, List.filter_cons]
        have hc : ((fun j : PDFInput => j.analysis.isOk) i) = true := by
          dsimp only
          rw [hi]
          rfl
        rw [if_pos hc, List.filterMap_cons, hi]
        dsimp only
        rw [ih]

/-- Witness for claim C8: a failing document between two processed ones. -/
theorem failed_document_skipped_witness :
    process_documents_dynamic ([c8_good_input] ++ c8_bad_input :: [c8_good_input])
        default_context =
      process_documents_dynamic [c8_good_input] default_context ++
        process_documents_dynamic [c8_good_input] default_context :=
  (failed_document_skipped default_context).1 [c8_good_input] [c8_good_input] c8_bad_input rfl

/-- Claim C9 (amended): whenever the Context Analyzer sets group_size (which
requires the substring "group" in the combined lower-cased text), the recorded
value equals the first integer literal appearing in job_text (a non-negative
integer). -/
theorem group_size_first_number (persona_text job_text : List Char) (n : Nat)
    (h : (analyze_persona_job_context persona_text job_text).group_size = some n) :
    hasSub (lowerL (persona_text ++ ' ' :: job_text)) ("group".toList) = true ∧
    ∃ w, (findNumbers job_text).head? = some w ∧ parseNat w = n := by
  have hgs : (analyze_persona_job_context persona_text job_text).group_size =
      (if hasSub (lowerL (persona_text ++ ' ' :: job_text)) ("group".toList) then
        match findNumbers job_text with
        | [] => none
        | m :: _ => some (parseNat m)
      else none) := rfl
  rw [hgs] at h
  split at h
  · rename_i hg
    refine ⟨hg, ?_⟩
    split at h
    · exact absurd h (by simp)
    · rename_i m rest hm
      refine ⟨m, ?_, ?_⟩
      · rw [hm]
        rfl
      · exact (Option.some.injEq _ _).mp h
  · exact absurd h (by simp)

/-- Witness for claim C9 at the concrete job text "group of 7". -/
theorem group_size_first_number_witness :
    hasSub (lowerL ([] ++ ' ' :: "group of 7".toList)) ("group".toList) = true ∧
    ∃ w, (findNumbers ("group of 7".toList)).head? = some w ∧ parseNat w = 7 :=
  group_size_first_number [] ("group of 7".toList) 7 (by decide)

/-- Counterexample to claim C9 as stated: the job text "subgroup of 0" sets
group_size to 0, which is not a positive integer, and it does so although the
token "group" never occurs in the combined text (only the substring inside
"subgroup" does). -/
theorem group_size_zero_counterexample :
    (analyze_persona_job_context [] ("subgroup of 0".toList)).group_size = some 0 ∧
    "group".toList ∉ findWords (lowerL ([] ++ ' ' :: "subgroup of 0".toList)) := by
  decide


/-- Counterexample to claim C2 as stated: on the worked example input the
Context Analyzer does NOT produce the claimed context - group_size is 4, not
6 (re.findall finds the "4" of "4-day" first), and trip_duration is
"unknown", not "4_days" (the days regex does not match across the hyphen of
"4-day"). -/
theorem context_analysis_claim_false :
    ¬ ((analyze_persona_job_context c2_persona c2_job).persona_type = .content_creator ∧
       (analyze_persona_job_context c2_persona c2_job).group_type = .group ∧
       (analyze_persona_job_context c2_persona c2_job).group_size = some 6 ∧
       (analyze_persona_job_context c2_persona c2_job).age_group = .young_adult ∧
       (analyze_persona_job_context c2_persona c2_job).trip_duration = "4_days".toList ∧
       (analyze_persona_job_context c2_persona c2_job).budget_level = .budget ∧
       Activity.nightlife ∈ (analyze_persona_job_context c2_persona c2_job).activity_preferences ∧
       Activity.culinary ∈ (analyze_persona_job_context c2_persona c2_job).activity_preferences) := by
  decide

/-- Claim C2 (amended): on the worked example input the Context Analyzer
produces persona_type content_creator, group_type group, group_size 4 (the
first integer literal of the job text), age_group young_adult, trip_duration
"unknown", budget_level budget, and activity preferences containing nightlife
and culinary. -/
theorem context_analysis_on_blogger_input :
    (analyze_persona_job_context c2_persona c2_job).persona_type = .content_creator ∧
    (analyze_persona_job_context c2_persona c2_job).group_type = .group ∧
    (analyze_persona_job_context c2_persona c2_job).group_size = some 4 ∧
    (analyze_persona_job_context c2_persona c2_job).age_group = .young_adult ∧
    (analyze_persona_job_context c2_persona c2_job).trip_duration = "unknown".toList ∧
    (analyze_persona_job_context c2_persona c2_job).budget_level = .budget ∧
    Activity.nightlife ∈ (analyze_persona_job_context c2_persona c2_job).activity_preferences ∧
    Activity.culinary ∈ (analyze_persona_job_context c2_persona c2_job).activity_preferences := by
  decide

end AdobeR1B
